import Mathlib

/-!
# MailVet — verification of the SPF evaluator, orchestrator and scoring engine

Shallow embedding of the core of the MailVet email-security scanner:

* `src/checks/spf.ts` — `checkSPF`, `extractMechanism`, `extractIncludes`,
  `countDNSLookupsRecursive` (the RFC 7208 recursive DNS-lookup counter);
* `src/core/scorer.ts` — `calculateGrade`, `calculateIssuePenalty`;
* `src/core/analyzer.ts` — `analyzeDomain` (result combination, per-check
  failure isolation, cross-check consistency rules);
* `src/utils/domain.ts` — `isValidDomain`;
* `src/constants.ts` — the numeric limits and thresholds.

Conventions of the embedding:

* JavaScript strings are Lean `String`s; all scanning is done on the
  underlying `List Char` so that every definition reduces in the kernel.
  `toLowerCase` is modelled for the ASCII range (DNS records and domains).
* The DNS layer (`dns.resolveTxt`) is a pure environment
  `DnsEnv : String → DnsAnswer` distinguishing a successful answer, a
  "no such record" error (`ENOTFOUND`/`ENODATA`), and any other failure.
  A TXT answer is a list of records, each a list of chunks that the code
  joins with `r.join('')`.
* The SHA-256 record hash used in the cycle-detection key only serves as an
  (assumed injective) fingerprint of the record content; it is modelled by
  the record content itself, so the visited key `domain:hash(record)`
  becomes `domain.toLowerCase() ++ ":" ++ record`.
* The recursion of `countDNSLookupsRecursive` is bounded by the guard
  `depth > SPF_MAX_RECURSION_DEPTH`; structurally it recurses on
  `remaining = SPF_MAX_RECURSION_DEPTH + 1 - depth`, which is zero exactly
  when the guard fires and decreases by one exactly when the source passes
  `depth + 1`.
-/

namespace MailVet

/-! ## Constants (src/constants.ts) -/

def SPF_MAX_DNS_LOOKUPS : Nat := 10
def SPF_MAX_RECURSION_DEPTH : Nat := 10

def GRADE_A_MIN : Int := 90
def GRADE_B_MIN : Int := 75
def GRADE_C_MIN : Int := 50
def GRADE_D_MIN : Int := 25
-- `// BIMI(5) + MTA-STS(4) + TLS-RPT(3) + ARC(3) + DNSSEC(5)`; the comments in
-- the source (`constants.ts`, `scorer.ts`) nevertheless describe the bonus
-- pool as "max ... + 15 bonus" / "up to +15".
def SCORE_BONUS_MAX : Int := 20
def DKIM_WEAK_KEY_BITS : Nat := 1024
def DKIM_STRONG_KEY_BITS : Nat := 2048

/-! ## Characters and ASCII string scanning

Helpers mirroring the JavaScript regex primitives used by the source:
`\w` (word character), `\s` (whitespace), `\b` (word boundary), and
case-insensitive matching restricted to ASCII. -/

/-- JavaScript `\w`: `[A-Za-z0-9_]`. -/
def isWordChar (c : Char) : Bool := c.isAlphanum || c = '_'

/-- ASCII lowercasing, the fragment of `String.prototype.toLowerCase`
relevant to DNS records. -/
def charToLower (c : Char) : Char :=
  if 'A' ≤ c ∧ c ≤ 'Z' then Char.ofNat (c.toNat + 32) else c

def lowerChars (cs : List Char) : List Char := cs.map charToLower

/-- Embeds `record.toLowerCase()` (ASCII fragment). -/
def strToLower (s : String) : String := String.mk (lowerChars s.data)

/-- A word boundary `\b` holds before a word character when the previous
character (`none` at the start of the string) is not a word character. -/
def atBoundary : Option Char → Bool
  | none => true
  | some c => !isWordChar c

/-- The separator group `(:|\/|\s|$)` that closes the `a`, `mx`, `ptr`
mechanism regexes. -/
def isSepAfter : Option Char → Bool
  | none => true
  | some c => c = ':' || c = '/' || c.isWhitespace

/-- If `tok` is literally the first chunk of `cs`, return the rest. -/
def tokAt : List Char → List Char → Option (List Char)
  | [], rest => some rest
  | _, [] => none
  | t :: ts, c :: cs => if c = t then tokAt ts cs else none

/-- Case-insensitive variant of `tokAt` (the token is given in lowercase). -/
def tokAtCI : List Char → List Char → Option (List Char)
  | [], rest => some rest
  | _, [] => none
  | t :: ts, c :: cs => if charToLower c = t then tokAtCI ts cs else none

/-- One candidate match of `\btok(:|\/|\s|$)` at the current position:
word boundary against the previous character, the literal token, and a
separator (or end of string) after it. -/
def mechAtSep (tok : List Char) (prev : Option Char) (cs : List Char) : Bool :=
  atBoundary prev &&
    match tokAt tok cs with
    | some rest => isSepAfter rest.head?
    | none => false

/-- Count of the matches of `\btok(:|\/|\s|$)/g` in a string, one position at
a time.  For the tokens `a`, `mx`, `ptr` this equals the count returned by
`String.prototype.match` with the `g` flag: a match is at most `tok` plus one
separator character long, no character inside a match can start another
match of the same token, and `\b` only inspects the underlying string. -/
def countMechSepAux (tok : List Char) : Option Char → List Char → Nat
  | _, [] => 0
  | prev, c :: cs =>
    (if mechAtSep tok prev (c :: cs) then 1 else 0) + countMechSepAux tok (some c) cs

/-- Count of the matches of `\btok/g` for a token that needs no trailing
separator (used for `\bexists:`). -/
def countMechBareAux (tok : List Char) : Option Char → List Char → Nat
  | _, [] => 0
  | prev, c :: cs =>
    (if atBoundary prev && (tokAt tok (c :: cs)).isSome then 1 else 0)
      + countMechBareAux tok (some c) cs

/-- Embeds `lower.match(/\ba(:|\/|\s|$)/g)` count. -/
def countMechA (lower : String) : Nat := countMechSepAux ['a'] none lower.data

/-- Embeds `lower.match(/\bmx(:|\/|\s|$)/g)` count. -/
def countMechMx (lower : String) : Nat := countMechSepAux ['m', 'x'] none lower.data

/-- Embeds `lower.match(/\bptr(:|\/|\s|$)/g)` count. -/
def countMechPtr (lower : String) : Nat := countMechSepAux ['p', 't', 'r'] none lower.data

/-- Embeds `lower.match(/\bexists:/g)` count. -/
def countMechExists (lower : String) : Nat :=
  countMechBareAux ['e', 'x', 'i', 's', 't', 's', ':'] none lower.data

/-- The direct DNS-lookup-consuming mechanism count of one record: the four
counting statements of `countDNSLookupsRecursive` (src/checks/spf.ts,
lines 237-251) applied to the lowercased record. -/
def mechLookupCount (lower : String) : Nat :=
  countMechA lower + countMechMx lower + countMechPtr lower + countMechExists lower

/-- Embeds `/include:([^\s]+)/gi` — all captured targets, in order.  After a match
the scan resumes past the captured target (the `g`-flag semantics); when
`include:` is followed by whitespace or the end of the string the regex
fails at this position and the scan advances one character.  The captured
target keeps its original case. -/
def extractIncludesAux : Nat → List Char → List String
  | 0, _ => []
  | _, [] => []
  | fuel + 1, c :: cs =>
    match tokAtCI ['i', 'n', 'c', 'l', 'u', 'd', 'e', ':'] (c :: cs) with
    | some rest =>
      let tgt := rest.takeWhile (fun ch => !ch.isWhitespace)
      if tgt.isEmpty then extractIncludesAux fuel cs
      else String.mk tgt :: extractIncludesAux fuel (rest.drop tgt.length)
    | none => extractIncludesAux fuel cs

/-- Embeds `extractIncludes` (src/checks/spf.ts, lines 165-173); also the include
loop of the recursive counter uses the same regex. -/
def extractIncludes (record : String) : List String :=
  extractIncludesAux record.data.length record.data

/-- Embeds `lower.match(/redirect=([^\s]+)/)` — first match only, on the lowercased
record. -/
def extractRedirectAux : Nat → List Char → Option String
  | 0, _ => none
  | _, [] => none
  | fuel + 1, c :: cs =>
    match tokAt ['r', 'e', 'd', 'i', 'r', 'e', 'c', 't', '='] (c :: cs) with
    | some rest =>
      let tgt := rest.takeWhile (fun ch => !ch.isWhitespace)
      if tgt.isEmpty then extractRedirectAux fuel cs else some (String.mk tgt)
    | none => extractRedirectAux fuel cs

def extractRedirect (lower : String) : Option String :=
  extractRedirectAux lower.data.length lower.data

/-- Does `(c::cs)` start (case-insensitively) with `all` followed by a word
boundary? -/
def allMatchAt (cs : List Char) : Bool :=
  match tokAtCI ['a', 'l', 'l'] cs with
  | some rest =>
    match rest.head? with
    | none => true
    | some c => !isWordChar c
  | none => false

def isQualChar (c : Char) : Bool := c = '+' || c = '-' || c = '~' || c = '?'

/-- The first match of `/([+\-~?]?)all\b/i`, returned as the qualifier
(`'+'` when the optional group is empty, the JS default).  At each position
the greedy optional group first tries to consume a qualifier character. -/
def extractMechAux : List Char → Option Char
  | [] => none
  | c :: cs =>
    if isQualChar c && allMatchAt cs then some c
    else if allMatchAt (c :: cs) then some '+'
    else extractMechAux cs

/-- Embeds `extractMechanism` (src/checks/spf.ts, lines 156-163): the matched
qualifier (default `+`) prefixed to the literal `all`. -/
def extractMechanism (record : String) : Option String :=
  (extractMechAux record.data).map (fun q => String.mk [q] ++ "all")

/-! ## The DNS environment -/

/-- Outcome of one `dns.resolveTxt` call.  `ok` carries the TXT records,
each as the list of character-string chunks that the code joins with
`r.join('')`; `notFound` is an `ENOTFOUND`/`ENODATA` rejection; `fail` is
any other DNS failure. -/
inductive DnsAnswer
  | ok (records : List (List String))
  | notFound
  | fail
deriving Repr, DecidableEq

def DnsEnv := String → DnsAnswer

/-- Embeds `r.join('')` for one TXT record. -/
def joinChunks (chunks : List String) : String :=
  chunks.foldl (fun acc s => acc ++ s) ""

/-- Embeds `dns.resolveTxt(domain)` followed by `.map(r => r.join(''))`, with every
rejection collapsed to `none` (inside `countDNSLookupsRecursive` both error
kinds land in the same `catch`). -/
def resolveTxtJoined (env : DnsEnv) (domain : String) : Option (List String) :=
  match env domain with
  | .ok rs => some (rs.map joinChunks)
  | _ => none

/-- Embeds `r.toLowerCase().startsWith('v=spf1')`. -/
def isSpfRecord (r : String) : Bool :=
  (tokAtCI ['v', '=', 's', 'p', 'f', '1'] r.data).isSome

/-- Embeds `.find(r => r.toLowerCase().startsWith('v=spf1'))`. -/
def firstSpfRecord (records : List String) : Option String :=
  records.find? isSpfRecord

/-! ## The recursive DNS lookup counter (src/checks/spf.ts, lines 175-328) -/

/-- Embeds `LookupResult` (src/checks/spf.ts, lines 175-181).  `count` is a plain
natural number: the JS counter is only ever incremented. -/
structure LookupResult where
  count : Nat
  loopDetected : Bool
  depthLimitReached : Bool
  failedIncludes : List String
  failedRedirects : List String
deriving Repr, DecidableEq

/-- The early return taken when `depth > SPF_MAX_RECURSION_DEPTH`. -/
def depthLimitResult : LookupResult :=
  { count := 0, loopDetected := false, depthLimitReached := true
    failedIncludes := [], failedRedirects := [] }

/-- The early return taken when the visited set already holds the key. -/
def loopDetectedResult : LookupResult :=
  { count := 0, loopDetected := true, depthLimitReached := false
    failedIncludes := [], failedRedirects := [] }

/-- Accumulation of one recursive result into the running one:
`count += recursiveResult.count`, flags or-ed, failure lists appended —
the merge block repeated for includes and redirect in the source. -/
def mergeResult (acc rr : LookupResult) : LookupResult :=
  { count := acc.count + rr.count
    loopDetected := acc.loopDetected || rr.loopDetected
    depthLimitReached := acc.depthLimitReached || rr.depthLimitReached
    failedIncludes := acc.failedIncludes ++ rr.failedIncludes
    failedRedirects := acc.failedRedirects ++ rr.failedRedirects }

/-- The cycle-detection key `` `${domain.toLowerCase()}:${recordHash}` ``,
with the (injectively assumed) SHA-256 fingerprint of the record modelled by
the record itself. -/
def recordKeyOf (domain record : String) : String :=
  strToLower domain ++ ":" ++ record

/-- The body of the `include:` loop (src/checks/spf.ts, lines 253-285) for a
single target, parametrised by the evaluation `child` of the included record
at `depth + 1`; it threads the accumulated `LookupResult` and the visited set
(the JS `Set` is mutated in place and therefore shared across siblings). -/
def includeStep (env : DnsEnv)
    (child : String → String → List String → LookupResult × List String)
    (st : LookupResult × List String) (inc : String) : LookupResult × List String :=
  let acc := { st.1 with count := st.1.count + 1 }   -- the include itself is 1 lookup
  match resolveTxtJoined env inc with
  | none => ({ acc with failedIncludes := acc.failedIncludes ++ [inc] }, st.2)
  | some txts =>
    match firstSpfRecord txts with
    | none => ({ acc with failedIncludes := acc.failedIncludes ++ [inc] }, st.2)
    | some incSPF =>
      let res := child inc incSPF st.2
      (mergeResult acc res.1, res.2)

/-- The redirect block (src/checks/spf.ts, lines 287-319), parametrised the
same way. -/
def redirectStep (env : DnsEnv)
    (child : String → String → List String → LookupResult × List String)
    (st : LookupResult × List String) (lower : String) : LookupResult × List String :=
  match extractRedirect lower with
  | none => st
  | some redirectDomain =>
    let acc := { st.1 with count := st.1.count + 1 }   -- the redirect itself is 1 lookup
    match resolveTxtJoined env redirectDomain with
    | none => ({ acc with failedRedirects := acc.failedRedirects ++ [redirectDomain] }, st.2)
    | some txts =>
      match firstSpfRecord txts with
      | none => ({ acc with failedRedirects := acc.failedRedirects ++ [redirectDomain] }, st.2)
      | some redirectSPF =>
        let res := child redirectDomain redirectSPF st.2
        (mergeResult acc res.1, res.2)

/-- The body of `countDNSLookupsRecursive` below the depth guard,
parametrised by the evaluation `child` used for the `depth + 1` recursive
calls: cycle check and visited-set insertion, the four direct mechanism
counts, the `include:` loop, and the `redirect=` block. -/
def countRecBody (env : DnsEnv)
    (child : String → String → List String → LookupResult × List String)
    (domain record : String) (visited : List String) : LookupResult × List String :=
  let recordKey := recordKeyOf domain record
  if recordKey ∈ visited then (loopDetectedResult, visited)
  else
    let visited1 := recordKey :: visited
    let lower := strToLower record
    let base : LookupResult :=
      { count := mechLookupCount lower, loopDetected := false
        depthLimitReached := false, failedIncludes := [], failedRedirects := [] }
    let st1 := (extractIncludes record).foldl (includeStep env child) (base, visited1)
    redirectStep env child st1 lower

/-- Embeds `countDNSLookupsRecursive`, recursing structurally on
`remaining = SPF_MAX_RECURSION_DEPTH + 1 - depth`: `remaining = 0` is exactly
the guard `depth > SPF_MAX_RECURSION_DEPTH` and the source's `depth + 1`
becomes `remaining - 1`.  The function returns the `LookupResult` together
with the (mutated) visited set. -/
def countRecAux (env : DnsEnv) : Nat → String → String → List String →
    LookupResult × List String
  | 0, _, _, visited => (depthLimitResult, visited)
  | r + 1, domain, record, visited =>
    countRecBody env (fun d rec v => countRecAux env r d rec v) domain record visited

/-- Embeds `countDNSLookupsRecursive(domain, record, visited, depth)`. -/
def countDNSLookupsRecursive (env : DnsEnv) (domain record : String)
    (visited : List String) (depth : Nat) : LookupResult × List String :=
  countRecAux env (SPF_MAX_RECURSION_DEPTH + 1 - depth) domain record visited

/-! ## Concrete DNS environments for the SPF traversal claims -/

/-- A genuine two-node `include` cycle: `a.example` includes `b.example`
(and vice versa). -/
def envCycle : DnsEnv := fun d =>
  if d = "a.example" then .ok [["v=spf1 include:b.example -all"]]
  else if d = "b.example" then .ok [["v=spf1 include:a.example -all"]]
  else .notFound

def cycleRecordA : String := "v=spf1 include:b.example -all"

def chainRecord (next : String) : String := "v=spf1 include:" ++ next ++ " -all"

/-- A linear `include` chain `c0.x → c1.x → … → c11.x` that is deeper than
`SPF_MAX_RECURSION_DEPTH`. -/
def envChain : DnsEnv := fun d =>
  if d = "c0.x" then .ok [[chainRecord "c1.x"]]
  else if d = "c1.x" then .ok [[chainRecord "c2.x"]]
  else if d = "c2.x" then .ok [[chainRecord "c3.x"]]
  else if d = "c3.x" then .ok [[chainRecord "c4.x"]]
  else if d = "c4.x" then .ok [[chainRecord "c5.x"]]
  else if d = "c5.x" then .ok [[chainRecord "c6.x"]]
  else if d = "c6.x" then .ok [[chainRecord "c7.x"]]
  else if d = "c7.x" then .ok [[chainRecord "c8.x"]]
  else if d = "c8.x" then .ok [[chainRecord "c9.x"]]
  else if d = "c9.x" then .ok [[chainRecord "c10.x"]]
  else if d = "c10.x" then .ok [[chainRecord "c11.x"]]
  else if d = "c11.x" then .ok [["v=spf1 -all"]]
  else .notFound

/-- An acyclic diamond: `a.x` includes `b.x` and `c.x`, and both include the
same `d.x` (whose record consumes one `mx` lookup). -/
def envDiamond : DnsEnv := fun d =>
  if d = "a.x" then .ok [["v=spf1 include:b.x include:c.x -all"]]
  else if d = "b.x" then .ok [["v=spf1 include:d.x -all"]]
  else if d = "c.x" then .ok [["v=spf1 include:d.x -all"]]
  else if d = "d.x" then .ok [["v=spf1 mx -all"]]
  else .notFound

def diamondRecordA : String := "v=spf1 include:b.x include:c.x -all"

/-- A flat record with two `include:` targets that resolve to records free of
any DNS-lookup-consuming mechanism, plus one `a` and one `mx` mechanism. -/
def envFlat : DnsEnv := fun d =>
  if d = "one.x" then .ok [["v=spf1 ip4:1.2.3.0/24 -all"]]
  else if d = "two.x" then .ok [["v=spf1 ip4:2.2.2.0/24 -all"]]
  else .notFound

def flatRecord : String := "v=spf1 include:one.x include:two.x a mx -all"

/-! ## Issues and check results (src/types.ts) -/

inductive Severity
  | critical
  | high
  | medium
  | low
  | info
deriving Repr, DecidableEq

structure Issue where
  severity : Severity
  message : String
  recommendation : Option String := none
deriving Repr, DecidableEq

structure SPFResult where
  found : Bool
  record : Option String := none
  mechanism : Option String := none
  lookupCount : Option Nat := none
  includes : Option (List String) := none
  issues : List Issue
deriving Repr, DecidableEq

/-! ## checkSPF (src/checks/spf.ts, lines 11-154) -/

/-- Embeds `Array.from(new Set(xs))` — duplicates removed, first occurrences kept
in insertion order. -/
def dedupAux (seen : List String) : List String → List String
  | [] => []
  | x :: xs => if x ∈ seen then dedupAux seen xs else x :: dedupAux (x :: seen) xs

def dedupFirst (l : List String) : List String := dedupAux [] l

/-- The `found: false` result used both for "no SPF record" and for an
`ENOTFOUND`/`ENODATA` rejection. -/
def noSpfResult : SPFResult :=
  { found := false
    issues := [{ severity := .critical, message := "No SPF record found",
                 recommendation := some "Add an SPF record to prevent email spoofing" }] }

def multipleSpfIssue (n : Nat) : Issue :=
  { severity := .high, message := "Multiple SPF records found (" ++ toString n ++ ")"
    recommendation := some "Only one SPF record should exist per domain" }

def loopIssue : Issue :=
  { severity := .high, message := "SPF record contains circular reference"
    recommendation := some "Remove circular include/redirect references" }

def depthIssue : Issue :=
  { severity := .high, message := "SPF record analysis exceeded recursion depth limit"
    recommendation := some "Simplify include/redirect chains to avoid excessive nesting" }

def failedIncludeIssue (t : String) : Issue :=
  { severity := .high, message := "SPF include target not found: " ++ t
    recommendation := some "Ensure the include domain publishes a valid SPF record" }

def failedRedirectIssue (t : String) : Issue :=
  { severity := .high, message := "SPF redirect target not found: " ++ t
    recommendation := some "Ensure the redirect domain publishes a valid SPF record" }

def plusAllIssue : Issue :=
  { severity := .critical, message := "SPF uses +all (pass all) - effectively no protection"
    recommendation := some "Change to -all (hardfail) for maximum protection" }

def noAllIssue : Issue :=
  { severity := .high, message := "SPF record has no all mechanism"
    recommendation := some "Add -all at the end of your SPF record" }

/-- The mechanism-strength `if`/`else if` chain: `+all` critical, `?all`
high, `~all` medium, `-all` nothing, anything else (including a missing
`all` mechanism) the no-`all` high issue. -/
def mechanismIssues (m : Option String) : List Issue :=
  if m = some "+all" then [plusAllIssue]
  else if m = some "?all" then
    [{ severity := .high, message := "SPF uses ?all (neutral) - weak protection"
       recommendation := some "Change to -all (hardfail) for maximum protection" }]
  else if m = some "~all" then
    [{ severity := .medium, message := "SPF uses ~all (softfail) - consider using hardfail"
       recommendation := some "Change to -all (hardfail) when ready for stricter enforcement" }]
  else if m = some "-all" then []
  else [noAllIssue]

def lookupCountIssues (n : Nat) : List Issue :=
  if SPF_MAX_DNS_LOOKUPS < n then
    [{ severity := .high
       message := "SPF record exceeds DNS lookup limit (" ++ toString n ++ "/"
         ++ toString SPF_MAX_DNS_LOOKUPS ++ ")"
       recommendation := some "Reduce the number of include/redirect mechanisms or flatten the SPF record" }]
  else if 7 < n then
    [{ severity := .medium
       message := "SPF record is close to DNS lookup limit (" ++ toString n ++ "/"
         ++ toString SPF_MAX_DNS_LOOKUPS ++ ")"
       recommendation := some "Consider flattening SPF record to avoid future issues" }]
  else []

def ptrDeprecatedIssue : Issue :=
  { severity := .medium, message := "SPF record uses deprecated ptr mechanism"
    recommendation := some "Replace ptr with explicit IP ranges or include statements" }

/-- Embeds `checkSPF(domain)`.  `.error ()` is the re-thrown non-not-found DNS
failure; the issue list concatenates the pushes in source order.  The
deprecated-`ptr` test `/\bptr(:|\/|\s|$)/i.test(record)` is evaluated on the
lowercased record, which the `i` flag makes equivalent. -/
def checkSPF (env : DnsEnv) (domain : String) : Except Unit SPFResult :=
  match env domain with
  | .fail => .error ()
  | .notFound => .ok noSpfResult
  | .ok txtRecords =>
    let spfRecords := (txtRecords.map joinChunks).filter isSpfRecord
    if spfRecords.length = 0 then .ok noSpfResult
    else
      let record := spfRecords.headD ""
      let mechanism := extractMechanism record
      let includes := extractIncludes record
      let lookupResult := (countDNSLookupsRecursive env domain record [] 0).1
      let lookupCount := lookupResult.count
      let issues :=
        (if 1 < spfRecords.length then [multipleSpfIssue spfRecords.length] else [])
        ++ (if lookupResult.loopDetected then [loopIssue] else [])
        ++ (if lookupResult.depthLimitReached then [depthIssue] else [])
        ++ (dedupFirst lookupResult.failedIncludes).map failedIncludeIssue
        ++ (dedupFirst lookupResult.failedRedirects).map failedRedirectIssue
        ++ mechanismIssues mechanism
        ++ lookupCountIssues lookupCount
        ++ (if 0 < countMechPtr (strToLower record) then [ptrDeprecatedIssue] else [])
      .ok { found := true, record := some record, mechanism := mechanism
            lookupCount := some lookupCount, includes := some includes, issues := issues }

/-- Embeds `v=spf1 +all` published for `x.example`. -/
def envPlusAll : DnsEnv := fun d =>
  if d = "x.example" then .ok [["v=spf1 +all"]] else .notFound

/-- An SPF record with no `all` mechanism published for `y.example`. -/
def envNoAll : DnsEnv := fun d =>
  if d = "y.example" then .ok [["v=spf1 ip4:1.2.3.4"]] else .notFound

instance : DecidableEq (Except Unit SPFResult) := fun a b =>
  match a, b with
  | .ok x, .ok y =>
    if h : x = y then .isTrue (congrArg Except.ok h)
    else .isFalse (fun he => h (Except.ok.inj he))
  | .error x, .error y =>
    if h : x = y then .isTrue (congrArg Except.error h)
    else .isFalse (fun he => h (Except.error.inj he))
  | .ok _, .error _ => .isFalse (fun he => Except.noConfusion he)
  | .error _, .ok _ => .isFalse (fun he => Except.noConfusion he)

/-! ## The remaining check-result types (src/types.ts) -/

structure DKIMSelector where
  selector : String
  found : Bool
  keyType : Option String := none
  keyLength : Option Nat := none
  record : Option String := none
deriving Repr, DecidableEq

structure DKIMResult where
  found : Bool
  selectors : List DKIMSelector
  issues : List Issue
deriving Repr, DecidableEq

inductive DMARCPolicy
  | pnone
  | quarantine
  | reject
deriving Repr, DecidableEq

structure DMARCResult where
  found : Bool
  record : Option String := none
  policy : Option DMARCPolicy := none
  subdomainPolicy : Option DMARCPolicy := none
  reportingEnabled : Option Bool := none
  rua : Option (List String) := none
  ruf : Option (List String) := none
  pct : Option Nat := none
  issues : List Issue
deriving Repr, DecidableEq

structure MXRecord where
  exchange : String
  priority : Nat
deriving Repr, DecidableEq

structure MXResult where
  found : Bool
  records : List MXRecord
  issues : List Issue
deriving Repr, DecidableEq

structure BIMIResult where
  found : Bool
  record : Option String := none
  version : Option String := none
  logoUrl : Option String := none
  certificateUrl : Option String := none
  issues : List Issue
deriving Repr, DecidableEq

inductive MTASTSMode
  | enforce
  | testing
  | mnone
deriving Repr, DecidableEq

structure MTASTSPolicy where
  version : Option String := none
  mode : Option MTASTSMode := none
  mx : Option (List String) := none
  maxAge : Option Nat := none
deriving Repr, DecidableEq

structure MTASTSResult where
  found : Bool
  dnsRecord : Option String := none
  version : Option String := none
  id : Option String := none
  policy : Option MTASTSPolicy := none
  issues : List Issue
deriving Repr, DecidableEq

structure TLSRPTResult where
  found : Bool
  record : Option String := none
  version : Option String := none
  rua : Option (List String) := none
  issues : List Issue
deriving Repr, DecidableEq

structure ARCReadinessResult where
  ready : Bool
  canSign : Bool
  canValidate : Bool
  issues : List Issue
deriving Repr, DecidableEq

/-- The fields of the DNSSEC check result consumed by the scorer and the
analyzer (`dnssec?.enabled`, `dnssec.chainValid`, `dnssec?.issues`); the
check itself is an external probe collaborator. -/
structure DNSSECResult where
  enabled : Bool
  chainValid : Option Bool := none
  issues : List Issue
deriving Repr, DecidableEq

inductive Grade
  | A
  | B
  | C
  | D
  | F
deriving Repr, DecidableEq

structure GradeResult where
  grade : Grade
  score : Int
deriving Repr, DecidableEq

/-! ## Scoring engine (src/core/scorer.ts) -/

/-- Embeds `SEVERITY_PENALTIES` (src/core/scorer.ts, lines 30-36). -/
def SEVERITY_PENALTIES : Severity → Nat
  | .critical => 15
  | .high => 8
  | .medium => 3
  | .low => 1
  | .info => 0

/-- JavaScript truthiness of an optional string (`undefined` and `''` are
falsy). -/
def optStrTruthy : Option String → Bool
  | some s => !(s = "")
  | none => false

/-- Embeds `dmarc.policy && dmarc.policy !== 'none'` — the string `'none'` itself is
truthy, so this is "defined and distinct from `none`". -/
def dmarcPolicyStrict : Option DMARCPolicy → Bool
  | some p => p ≠ DMARCPolicy.pnone
  | none => false

/-- SPF block of `calculateGrade` (max 35 points). -/
def spfScore (spf : SPFResult) : Int :=
  if spf.found then
    15
    + (if spf.mechanism = some "-all" then 20
       else if spf.mechanism = some "~all" then 10
       else if spf.mechanism = some "?all" then 5
       else 0)
    - (if (match spf.lookupCount with
           | some n => decide (10 < n)
           | none => false) then 10 else 0)
  else 0

/-- Embeds `s.keyType === 'ed25519' || (s.keyLength && s.keyLength >= DKIM_STRONG_KEY_BITS)`. -/
def selectorStrong (s : DKIMSelector) : Bool :=
  s.keyType = some "ed25519"
    || (match s.keyLength with
        | some k => decide (DKIM_STRONG_KEY_BITS ≤ k)
        | none => false)

/-- Embeds `s.keyLength && s.keyLength >= DKIM_WEAK_KEY_BITS`. -/
def selectorWeakOrBetter (s : DKIMSelector) : Bool :=
  match s.keyLength with
  | some k => decide (DKIM_WEAK_KEY_BITS ≤ k)
  | none => false

/-- DKIM block of `calculateGrade` (max 25 points). -/
def dkimScore (dkim : DKIMResult) : Int :=
  if dkim.found then
    15
    + (if dkim.selectors.any selectorStrong then 10
       else if dkim.selectors.any selectorWeakOrBetter then 5
       else 0)
  else 0

/-- DMARC block of `calculateGrade` (max 40 points). -/
def dmarcScore (dmarc : DMARCResult) : Int :=
  if dmarc.found then
    10
    + (if dmarc.policy = some .reject then 20
       else if dmarc.policy = some .quarantine then 12
       else if dmarc.policy = some .pnone then 3
       else 0)
    + (if dmarc.reportingEnabled.getD false then 5 else 0)
    + (if dmarc.pct = none ∨ dmarc.pct = some 100 then 5 else 0)
  else 0

/-- BIMI bonus: +3 only when the DMARC prerequisite holds, +2 more for a
certificate URL. -/
def bimiBonus (dmarc : DMARCResult) (bimi : Option BIMIResult) : Int :=
  match bimi with
  | some b =>
    if b.found then
      if dmarc.found && dmarcPolicyStrict dmarc.policy then
        3 + (if optStrTruthy b.certificateUrl then 2 else 0)
      else 0
    else 0
  | none => 0

/-- MTA-STS bonus: +4 enforce, +2 testing. -/
def mtaStsBonus (mtaSts : Option MTASTSResult) : Int :=
  match mtaSts with
  | some m =>
    if m.found then
      match m.policy with
      | some pol =>
        (match pol.mode with
         | some .enforce => 4
         | some .testing => 2
         | _ => 0)
      | none => 0
    else 0
  | none => 0

/-- TLS-RPT bonus: +3 when at least one reporting address exists. -/
def tlsRptBonus (tlsRpt : Option TLSRPTResult) : Int :=
  match tlsRpt with
  | some t =>
    if t.found then
      match t.rua with
      | some l => if 0 < l.length then 3 else 0
      | none => 0
    else 0
  | none => 0

/-- ARC bonus: +3 when ready and able to sign. -/
def arcBonus (arc : Option ARCReadinessResult) : Int :=
  match arc with
  | some a => if a.ready && a.canSign then 3 else 0
  | none => 0

/-- DNSSEC bonus: +5 with a valid chain, +3 merely enabled. -/
def dnssecBonus (dnssec : Option DNSSECResult) : Int :=
  match dnssec with
  | some d => if d.enabled then (if d.chainValid.getD false then 5 else 3) else 0
  | none => 0

/-- The issue collection of `calculateIssuePenalty` (src/core/scorer.ts,
lines 224-234): the issues of all nine results concatenated
(`bimi?.issues || []` for the optional ones). -/
def allIssues (spf : SPFResult) (dkim : DKIMResult) (dmarc : DMARCResult)
    (mx : MXResult) (bimi : Option BIMIResult) (mtaSts : Option MTASTSResult)
    (tlsRpt : Option TLSRPTResult) (arc : Option ARCReadinessResult)
    (dnssec : Option DNSSECResult) : List Issue :=
  spf.issues ++ dkim.issues ++ dmarc.issues ++ mx.issues
    ++ (bimi.map BIMIResult.issues).getD []
    ++ (mtaSts.map MTASTSResult.issues).getD []
    ++ (tlsRpt.map TLSRPTResult.issues).getD []
    ++ (arc.map ARCReadinessResult.issues).getD []
    ++ (dnssec.map DNSSECResult.issues).getD []

/-- Embeds `severityCounts[s]` after the tally loop. -/
def sevCount (issues : List Issue) (s : Severity) : Nat :=
  (issues.filter (fun i => i.severity == s)).length

/-- Embeds `calculateIssuePenalty` (src/core/scorer.ts, lines 212-260): critical
capped at 3, high capped at 3, medium capped at 5; low/info never added. -/
def calculateIssuePenalty (spf : SPFResult) (dkim : DKIMResult)
    (dmarc : DMARCResult) (mx : MXResult) (bimi : Option BIMIResult)
    (mtaSts : Option MTASTSResult) (tlsRpt : Option TLSRPTResult)
    (arc : Option ARCReadinessResult) (dnssec : Option DNSSECResult) : Nat :=
  let issues := allIssues spf dkim dmarc mx bimi mtaSts tlsRpt arc dnssec
  min (sevCount issues .critical) 3 * SEVERITY_PENALTIES .critical
    + min (sevCount issues .high) 3 * SEVERITY_PENALTIES .high
    + min (sevCount issues .medium) 5 * SEVERITY_PENALTIES .medium

/-- The grade `if`/`else if` chain of `calculateGrade`
(src/core/scorer.ts, lines 192-203). -/
def gradeOf (score : Int) : Grade :=
  if GRADE_A_MIN ≤ score then .A
  else if GRADE_B_MIN ≤ score then .B
  else if GRADE_C_MIN ≤ score then .C
  else if GRADE_D_MIN ≤ score then .D
  else .F

/-- The score computed by `calculateGrade` (src/core/scorer.ts,
lines 76-189): base blocks, bonus capped at `SCORE_BONUS_MAX` and applied
under the 100 ceiling, penalty subtraction floored at 0, final clamp to
`[0, 100]`. -/
def finalScore (spf : SPFResult) (dkim : DKIMResult) (dmarc : DMARCResult)
    (mx : MXResult) (bimi : Option BIMIResult) (mtaSts : Option MTASTSResult)
    (tlsRpt : Option TLSRPTResult) (arc : Option ARCReadinessResult)
    (dnssec : Option DNSSECResult) : Int :=
  let base := spfScore spf + dkimScore dkim + dmarcScore dmarc
  let bonus := bimiBonus dmarc bimi + mtaStsBonus mtaSts + tlsRptBonus tlsRpt
    + arcBonus arc + dnssecBonus dnssec
  let s1 := min 100 (base + min bonus SCORE_BONUS_MAX)
  let s2 := max 0
    (s1 - (calculateIssuePenalty spf dkim dmarc mx bimi mtaSts tlsRpt arc dnssec : Int))
  max 0 (min 100 s2)

/-- Embeds `calculateGrade` (src/core/scorer.ts, lines 65-206). -/
def calculateGrade (spf : SPFResult) (dkim : DKIMResult) (dmarc : DMARCResult)
    (mx : MXResult) (bimi : Option BIMIResult)
    (mtaSts : Option MTASTSResult) (tlsRpt : Option TLSRPTResult)
    (arc : Option ARCReadinessResult)
    (dnssec : Option DNSSECResult) : GradeResult :=
  { grade := gradeOf (finalScore spf dkim dmarc mx bimi mtaSts tlsRpt arc dnssec)
    score := finalScore spf dkim dmarc mx bimi mtaSts tlsRpt arc dnssec }

/-! ## Domain validation (src/utils/domain.ts, lines 78-102) -/

/-- Embeds `domain.split('.')` for a single-character separator. -/
def splitOnChar (sep : Char) : List Char → List (List Char)
  | [] => [[]]
  | c :: rest =>
    if c = sep then [] :: splitOnChar sep rest
    else
      match splitOnChar sep rest with
      | h :: t => (c :: h) :: t
      | [] => [[c]]

/-- Embeds `/^[a-z0-9]([a-z0-9-]*[a-z0-9])?$/i`: nonempty, alphanumeric first and
last character, alphanumeric-or-hyphen in between. -/
def labelRegexOk (cs : List Char) : Bool :=
  match cs with
  | [] => false
  | c :: rest =>
    c.isAlphanum &&
      (match rest with
       | [] => true
       | _ :: _ =>
         rest.dropLast.all (fun ch => ch.isAlphanum || ch = '-')
           && (rest.getLast?.getD ' ').isAlphanum)

/-- Embeds `isValidDomain` (src/utils/domain.ts): 1-253 total characters, at least
one dot, every label 1-63 characters and matching the label regex. -/
def isValidDomain (domain : String) : Bool :=
  if domain.data.length = 0 || 253 < domain.data.length then false
  else if !(domain.data.contains '.') then false
  else
    (splitOnChar '.' domain.data).all (fun label =>
      !(label.length = 0 || 63 < label.length) && labelRegexOk label)

/-! ## ARC readiness (src/checks/arc.ts) -/

def arcNoDkimIssue : Issue :=
  { severity := .medium, message := "DKIM not configured - cannot sign ARC headers"
    recommendation := some "Configure DKIM to enable ARC signing capability" }

def arcWeakDkimIssue : Issue :=
  { severity := .low, message := "DKIM keys should be 2048-bit RSA or ed25519 for ARC"
    recommendation := some "Upgrade DKIM keys to 2048-bit RSA or ed25519 for better ARC compatibility" }

def arcNoDmarcIssue : Issue :=
  { severity := .low, message := "DMARC not configured - ARC benefits are limited"
    recommendation := some "Configure DMARC to fully benefit from ARC authentication chain" }

def arcDmarcNoneIssue : Issue :=
  { severity := .info
    message := "DMARC policy is \"none\" - ARC can help when upgrading to stricter policy"
    recommendation := some "ARC preserves authentication when emails are forwarded" }

def arcNoSpfIssue : Issue :=
  { severity := .info
    message := "SPF not configured - ARC can help preserve SPF results across forwards"
    recommendation := some "Configure SPF for complete email authentication" }

def arcReadyIssue : Issue :=
  { severity := .info, message := "Domain is ARC-ready"
    recommendation := some "Your email infrastructure can participate in ARC chains" }

/-- Embeds `checkARCReadiness(spf, dkim, dmarc)`: derived purely from the three
results, no DNS.  `canSign` starts `true` and is cleared exactly when DKIM is
missing; the strong-key test is the same predicate as the scorer's (the
source repeats the lambda with the literal 2048). -/
def checkARCReadiness (spf : SPFResult) (dkim : DKIMResult)
    (dmarc : DMARCResult) : ARCReadinessResult :=
  let dkimIssues : List Issue :=
    if !dkim.found then [arcNoDkimIssue]
    else if !(dkim.selectors.any selectorStrong) then [arcWeakDkimIssue]
    else []
  let dmarcIssues : List Issue :=
    if !dmarc.found then [arcNoDmarcIssue]
    else if dmarc.policy = some .pnone then [arcDmarcNoneIssue]
    else []
  let spfIssues : List Issue := if !spf.found then [arcNoSpfIssue] else []
  let issues0 := dkimIssues ++ dmarcIssues ++ spfIssues
  let ready := dkim.found && dmarc.found
  { ready := ready
    canSign := dkim.found
    canValidate := true
    issues := if ready && issues0.length = 0 then issues0 ++ [arcReadyIssue] else issues0 }

/-! ## The orchestrator `analyzeDomain` (src/core/analyzer.ts) -/

/-- The modelled slice of `DomainResult`: the presentation-only fields
(`timestamp`, `recommendations`) are outside the embedding. -/
structure DomainResult where
  domain : String
  grade : Grade
  score : Int
  spf : SPFResult
  dkim : DKIMResult
  dmarc : DMARCResult
  mx : MXResult
  bimi : Option BIMIResult := none
  mtaSts : Option MTASTSResult := none
  tlsRpt : Option TLSRPTResult := none
  arc : Option ARCReadinessResult := none
  dnssec : Option DNSSECResult := none
  error : Option String := none
deriving Repr, DecidableEq

/-- The settled outcome of each concurrently launched check, as observed
after `Promise.allSettled`: fulfilled with the check's value, or rejected
with `reason.message`.  A disabled optional check fulfils with `none`
(`Promise.resolve(undefined)`). -/
structure SettledChecks where
  spf : Except String SPFResult
  dkim : Except String DKIMResult
  dmarc : Except String DMARCResult
  mx : Except String MXResult
  bimi : Except String (Option BIMIResult)
  mtaSts : Except String (Option MTASTSResult)
  tlsRpt : Except String (Option TLSRPTResult)
  dnssec : Except String (Option DNSSECResult)

/-- The single high-severity issue of `createFailedResult`. -/
def failedCheckIssue (checkName err : String) : Issue :=
  { severity := .high, message := checkName ++ " check failed: " ++ err
    recommendation := some "Check DNS configuration and try again" }

/-- Embeds `reason?.message || 'Unknown error'`. -/
def orUnknown (msg : String) : String := if msg = "" then "Unknown error" else msg

def extractSpf : Except String SPFResult → SPFResult
  | .ok v => v
  | .error msg => { found := false, issues := [failedCheckIssue "SPF" (orUnknown msg)] }

def extractDkim : Except String DKIMResult → DKIMResult
  | .ok v => v
  | .error msg =>
    { found := false, selectors := [], issues := [failedCheckIssue "DKIM" (orUnknown msg)] }

def extractDmarc : Except String DMARCResult → DMARCResult
  | .ok v => v
  | .error msg => { found := false, issues := [failedCheckIssue "DMARC" (orUnknown msg)] }

def extractMx : Except String MXResult → MXResult
  | .ok v => v
  | .error msg =>
    { found := false, records := [], issues := [failedCheckIssue "MX" (orUnknown msg)] }

def extractBimi : Except String (Option BIMIResult) → Option BIMIResult
  | .ok v => v
  | .error msg => some { found := false, issues := [failedCheckIssue "BIMI" (orUnknown msg)] }

def extractMtaSts : Except String (Option MTASTSResult) → Option MTASTSResult
  | .ok v => v
  | .error msg =>
    some { found := false, issues := [failedCheckIssue "MTA-STS" (orUnknown msg)] }

def extractTlsRpt : Except String (Option TLSRPTResult) → Option TLSRPTResult
  | .ok v => v
  | .error msg =>
    some { found := false, issues := [failedCheckIssue "TLS-RPT" (orUnknown msg)] }

/-- The DNSSEC fallback result has its own shape (no recommendation). -/
def extractDnssec : Except String (Option DNSSECResult) → Option DNSSECResult
  | .ok v => v
  | .error msg =>
    some { enabled := false
           issues := [{ severity := .high
                        message := "DNSSEC check failed: " ++ orUnknown msg }] }

/-- BIMI prerequisite cross-check (src/core/analyzer.ts, lines 312-327). -/
def bimiNoDmarcIssue : Issue :=
  { severity := .high, message := "BIMI requires DMARC to be configured"
    recommendation := some "Add a DMARC record with p=quarantine or p=reject" }

def bimiWeakDmarcIssue : Issue :=
  { severity := .high, message := "BIMI requires DMARC policy of quarantine or reject"
    recommendation := some "Upgrade DMARC policy from none to quarantine or reject" }

def applyBimiCheck (bimi : Option BIMIResult) (dmarc : DMARCResult) : Option BIMIResult :=
  match bimi with
  | some b =>
    if b.found then
      if !dmarc.found then some { b with issues := b.issues ++ [bimiNoDmarcIssue] }
      else if dmarc.policy = some .pnone ∨ dmarc.policy = none then
        some { b with issues := b.issues ++ [bimiWeakDmarcIssue] }
      else some b
    else some b
  | none => none

/-- Embeds `l.endsWith(s)` on character lists. -/
def charsEndsWith (l s : List Char) : Bool :=
  List.drop (l.length - s.length) l == s

/-- One `mtaStsMxPatterns.some(...)` candidate (src/core/analyzer.ts,
lines 335-343): lowercase the pattern; a `*.`-starting pattern matches hosts
ending in the suffix `p.slice(1)` and the bare domain `p.slice(2)` itself;
otherwise exact equality. -/
def mtaStsPatternMatches (mxHost pattern : String) : Bool :=
  let p := strToLower pattern
  if (tokAt ['*', '.'] p.data).isSome then
    charsEndsWith mxHost.data (p.data.drop 1) || mxHost = String.mk (p.data.drop 2)
  else mxHost = p

/-- Embeds `r.exchange.toLowerCase().replace(/\.$/, '')` — one trailing dot
stripped. -/
def stripTrailingDot (cs : List Char) : List Char :=
  if cs.getLast? = some '.' then cs.dropLast else cs

def mxHostsOf (mx : MXResult) : List String :=
  mx.records.map (fun r => String.mk (stripTrailingDot (lowerChars r.exchange.data)))

def uncoveredIssue (h : String) : Issue :=
  { severity := .high
    message := "MX host \"" ++ h ++ "\" not covered by MTA-STS policy"
    recommendation := some ("Add \"mx: " ++ h ++ "\" or appropriate wildcard to MTA-STS policy") }

/-- The issues pushed by the coverage loop, one per unmatched host in MX
order. -/
def mtaStsUncoveredIssues (patterns mxHosts : List String) : List Issue :=
  mxHosts.filterMap (fun h =>
    if patterns.any (mtaStsPatternMatches h) then none else some (uncoveredIssue h))

/-- MTA-STS / MX consistency cross-check (src/core/analyzer.ts,
lines 329-353). -/
def applyMtaStsMxCheck (mtaSts : Option MTASTSResult) (mx : MXResult) :
    Option MTASTSResult :=
  match mtaSts with
  | some m =>
    if m.found then
      match m.policy with
      | some pol =>
        match pol.mx with
        | some patterns =>
          if 0 < patterns.length ∧ mx.found then
            some { m with issues := m.issues ++ mtaStsUncoveredIssues patterns (mxHostsOf mx) }
          else some m
        | none => some m
      | none => some m
    else some m
  | none => none

/-- One entry of the aggregate error list: `` `${name}: ${reason?.message}` ``
for a rejected check, nothing for a fulfilled one. -/
def settledError {α : Type} (name : String) : Except String α → List String
  | .ok _ => []
  | .error msg => [name ++ ": " ++ msg]

/-- Embeds `errors.join('; ')`. -/
def joinErrors : List String → String
  | [] => ""
  | h :: t => t.foldl (fun acc x => acc ++ "; " ++ x) h

/-- The terminal result returned for a syntactically invalid domain
(src/core/analyzer.ts, lines 217-230). -/
def invalidDomainResult (domain : String) : DomainResult :=
  { domain := domain, grade := .F, score := 0
    spf := { found := false, issues := [] }
    dkim := { found := false, selectors := [], issues := [] }
    dmarc := { found := false, issues := [] }
    mx := { found := false, records := [], issues := [] }
    error := some ("Invalid domain format: \"" ++ domain ++ "\"") }

/-- Embeds `analyzeDomain`, over the already-normalized domain and the settled
outcomes of the concurrently launched checks: validation short-circuit,
extraction with per-check failure synthesis, ARC derivation, the two
cross-check rules, grading, and aggregate error collection.  In the invalid
branch the settled outcomes are never consumed (no check result is used). -/
def analyzeDomain (domain : String) (settled : SettledChecks) : DomainResult :=
  if !(isValidDomain domain) then invalidDomainResult domain
  else
    let spf := extractSpf settled.spf
    let dkim := extractDkim settled.dkim
    let dmarc := extractDmarc settled.dmarc
    let mx := extractMx settled.mx
    let bimi := applyBimiCheck (extractBimi settled.bimi) dmarc
    let mtaSts := applyMtaStsMxCheck (extractMtaSts settled.mtaSts) mx
    let tlsRpt := extractTlsRpt settled.tlsRpt
    let dnssec := extractDnssec settled.dnssec
    let arc := checkARCReadiness spf dkim dmarc
    let gr := calculateGrade spf dkim dmarc mx bimi mtaSts tlsRpt (some arc) dnssec
    let errors := settledError "SPF" settled.spf ++ settledError "DKIM" settled.dkim
      ++ settledError "DMARC" settled.dmarc ++ settledError "MX" settled.mx
      ++ settledError "BIMI" settled.bimi ++ settledError "MTA-STS" settled.mtaSts
      ++ settledError "TLS-RPT" settled.tlsRpt ++ settledError "DNSSEC" settled.dnssec
    { domain := domain, grade := gr.grade, score := gr.score
      spf := spf, dkim := dkim, dmarc := dmarc, mx := mx
      bimi := bimi, mtaSts := mtaSts, tlsRpt := tlsRpt, arc := some arc
      dnssec := dnssec
      error := if errors.length = 0 then none else some (joinErrors errors) }

/-- The matching relation exactly as the spec words it (for comparison with
`mtaStsPatternMatches`): a pattern matches by exact equality, or a
`*.suffix` wildcard pattern matches exactly the hosts ending in `.suffix`.
Modelled from the spec. -/
def claimPatternMatches (mxHost pattern : String) : Bool :=
  let p := strToLower pattern
  if (tokAt ['*', '.'] p.data).isSome then charsEndsWith mxHost.data (p.data.drop 1)
  else mxHost = p

/-- The wildcard's suffix (without the leading dot), when the lowercased
pattern starts with `*.`. -/
def wildcardSuffix (pattern : String) : Option String :=
  let p := strToLower pattern
  if (tokAt ['*', '.'] p.data).isSome then some (String.mk (p.data.drop 2)) else none

/-- The amended matching relation: exact equality, or a `*.suffix` wildcard
matching the hosts ending in `.suffix` together with the bare host equal to
`suffix` itself. -/
def amendedPatternMatches (mxHost pattern : String) : Bool :=
  match wildcardSuffix pattern with
  | some suffix => charsEndsWith mxHost.data ('.' :: suffix.data) || mxHost = suffix
  | none => mxHost = strToLower pattern


/-! ## Concrete inputs for the scoring and orchestration claims -/

/-- Penalty formula exactly as the spec words it, over an issue list:
`min(criticalCount,3)*15 + min(highCount,3)*8 + min(mediumCount,5)*3`,
low/info contributing 0.  Modelled from the spec for comparison with
`calculateIssuePenalty`. -/
def claimPenalty (issues : List Issue) : Nat :=
  min (sevCount issues .critical) 3 * 15
    + min (sevCount issues .high) 3 * 8
    + min (sevCount issues .medium) 5 * 3

def critIssue : Issue := { severity := .critical, message := "c" }

/-- An SPF result carrying five critical-severity issues. -/
def fiveCriticalSpf : SPFResult := { found := true, issues := List.replicate 5 critIssue }

def emptyDkim : DKIMResult := { found := false, selectors := [], issues := [] }
def emptyDmarc : DMARCResult := { found := false, issues := [] }
def emptyMx : MXResult := { found := false, records := [], issues := [] }

/-- DMARC `p=reject` without the reporting and pct bonuses: base score 30. -/
def fullBonusDmarc : DMARCResult :=
  { found := true, policy := some .reject, reportingEnabled := some false
    pct := some 50, issues := [] }

def fullBonusBimi : BIMIResult :=
  { found := true, certificateUrl := some "https://vmc.example/cert.pem", issues := [] }

def fullBonusMtaSts : MTASTSResult :=
  { found := true, policy := some { mode := some .enforce }, issues := [] }

def fullBonusTlsRpt : TLSRPTResult :=
  { found := true, rua := some ["mailto:tls@example.com"], issues := [] }

def fullBonusArc : ARCReadinessResult :=
  { ready := true, canSign := true, canValidate := true, issues := [] }

def fullBonusDnssec : DNSSECResult := { enabled := true, chainValid := some true, issues := [] }

/-- An MTA-STS policy whose only `mx` pattern is the wildcard
`*.example.com`. -/
def wildcardMtaSts : MTASTSResult :=
  { found := true, policy := some { mx := some ["*.example.com"] }, issues := [] }

/-- MX records whose sole exchange is the bare apex `EXAMPLE.com.`
(mixed case, trailing dot). -/
def bareMx : MXResult :=
  { found := true, records := [{ exchange := "EXAMPLE.com.", priority := 10 }], issues := [] }

/-- All checks fulfilled; MTA-STS found with the wildcard pattern and MX
found with the bare apex exchange. -/
def settledWildcard : SettledChecks :=
  { spf := .ok { found := false, issues := [] }
    dkim := .ok { found := false, selectors := [], issues := [] }
    dmarc := .ok { found := false, issues := [] }
    mx := .ok bareMx
    bimi := .ok none
    mtaSts := .ok (some wildcardMtaSts)
    tlsRpt := .ok none
    dnssec := .ok none }

/-! # Theorems -/

theorem countRecAux_succ (env : DnsEnv) (r : Nat) (domain record : String)
    (visited : List String) :
    countRecAux env (r + 1) domain record visited
      = countRecBody env (countRecAux env r) domain record visited := rfl

/-! ## Lemmas about the recursive counter -/

/-- A record free of lookup mechanisms, includes and redirect contributes a
count of zero at any remaining depth, from any visited set. -/
theorem countRecAux_zero_count (env : DnsEnv) (rem : Nat) (d r : String)
    (vis : List String)
    (h1 : mechLookupCount (strToLower r) = 0)
    (h2 : extractIncludes r = [])
    (h3 : extractRedirect (strToLower r) = none) :
    (countRecAux env rem d r vis).1.count = 0 := by
  cases rem with
  | zero => rfl
  | succ n =>
    rw [countRecAux_succ]
    by_cases hmem : recordKeyOf d r ∈ vis
    · simp [countRecBody, hmem, loopDetectedResult]
    · simp [countRecBody, hmem, h2, redirectStep, h3, h1]

/-- Processing a list of `include:` targets that all resolve to zero-count
records adds exactly one lookup per target. -/
theorem foldl_includeStep_count (env : DnsEnv)
    (child : String → String → List String → LookupResult × List String)
    (l : List String)
    (h : ∀ inc ∈ l, ∃ txts rinc, resolveTxtJoined env inc = some txts ∧
          firstSpfRecord txts = some rinc ∧
          ∀ vis, (child inc rinc vis).1.count = 0) :
    ∀ acc vis, ((l.foldl (includeStep env child) (acc, vis)).1.count
      = acc.count + l.length) := by
  induction l with
  | nil => intro acc vis; simp
  | cons inc rest ih =>
    intro acc vis
    obtain ⟨txts, rinc, hres, hfirst, hcount⟩ := h inc (List.mem_cons_self inc rest)
    have hstep : includeStep env child (acc, vis) inc
        = (mergeResult { acc with count := acc.count + 1 } (child inc rinc vis).1,
           (child inc rinc vis).2) := by
      simp only [includeStep, hres, hfirst]
    rw [List.foldl_cons, hstep,
      ih (fun i hi => h i (List.mem_cons_of_mem inc hi)) _ _]
    simp only [mergeResult, hcount vis, List.length_cons]
    omega

/-- Claim C2. Each `a`/`mx`/`ptr`/`exists:` occurrence contributes exactly 1
and each `include:` adds 1 plus the count of its resolved target: for an SPF
record with `N` `include:` targets whose resolved records contain no further
DNS-lookup-consuming mechanisms (and no redirect modifier of its own), the
lookup count starting at depth 0 is `N` plus the number of
`a`/`mx`/`ptr`/`exists` mechanisms of the top-level record. -/
theorem spf_flat_include_lookup_count (env : DnsEnv) (domain record : String)
    (hrd : extractRedirect (strToLower record) = none)
    (hincs : ∀ inc ∈ extractIncludes record, ∃ txts rinc,
        resolveTxtJoined env inc = some txts ∧ firstSpfRecord txts = some rinc ∧
        mechLookupCount (strToLower rinc) = 0 ∧ extractIncludes rinc = [] ∧
        extractRedirect (strToLower rinc) = none) :
    (countDNSLookupsRecursive env domain record [] 0).1.count
      = (extractIncludes record).length + mechLookupCount (strToLower record) := by
  have hrem : SPF_MAX_RECURSION_DEPTH + 1 - 0 = 10 + 1 := rfl
  have hc : ∀ inc ∈ extractIncludes record, ∃ txts rinc,
      resolveTxtJoined env inc = some txts ∧ firstSpfRecord txts = some rinc ∧
      ∀ vis, ((countRecAux env 10) inc rinc vis).1.count = 0 := by
    intro inc hinc
    obtain ⟨txts, rinc, hres, hfirst, hz1, hz2, hz3⟩ := hincs inc hinc
    exact ⟨txts, rinc, hres, hfirst, fun vis =>
      countRecAux_zero_count env 10 inc rinc vis hz1 hz2 hz3⟩
  unfold countDNSLookupsRecursive
  rw [hrem, countRecAux_succ]
  simp only [countRecBody, List.not_mem_nil, if_false, redirectStep, hrd]
  rw [foldl_includeStep_count env _ _ hc]
  simp only []
  omega

/-- Witness for `spf_flat_include_lookup_count`: a record with two flat
includes, one `a` and one `mx` yields a lookup count of 4. -/
theorem spf_flat_include_lookup_count_witness :
    (countDNSLookupsRecursive envFlat "top.x" flatRecord [] 0).1.count = 4 := by
  have hincs : ∀ inc ∈ extractIncludes flatRecord, ∃ txts rinc,
      resolveTxtJoined envFlat inc = some txts ∧ firstSpfRecord txts = some rinc ∧
      mechLookupCount (strToLower rinc) = 0 ∧ extractIncludes rinc = [] ∧
      extractRedirect (strToLower rinc) = none := by
    intro inc hinc
    have hl : extractIncludes flatRecord = ["one.x", "two.x"] := by decide
    rw [hl] at hinc
    have : inc = "one.x" ∨ inc = "two.x" := by simpa using hinc
    rcases this with rfl | rfl
    · exact ⟨["v=spf1 ip4:1.2.3.0/24 -all"], "v=spf1 ip4:1.2.3.0/24 -all",
        by decide, by decide, by decide, by decide, by decide⟩
    · exact ⟨["v=spf1 ip4:2.2.2.0/24 -all"], "v=spf1 ip4:2.2.2.0/24 -all",
        by decide, by decide, by decide, by decide, by decide⟩
  rw [spf_flat_include_lookup_count envFlat "top.x" flatRecord (by decide) hincs]
  decide

/-- Claim C1. The recursive lookup counter terminates for every DNS
environment: above the depth limit it returns immediately with
`depthLimitReached` (without any recursion); on a genuine two-node
`include` cycle it terminates with `loopDetected = true` and the finite
count 2; on a 12-deep `include` chain it terminates with
`depthLimitReached = true` and count 11. -/
theorem spf_recursion_terminates :
    (∀ (env : DnsEnv) (domain record : String) (visited : List String) (depth : Nat),
        SPF_MAX_RECURSION_DEPTH < depth →
        countDNSLookupsRecursive env domain record visited depth
          = (depthLimitResult, visited)) ∧
    (countDNSLookupsRecursive envCycle "a.example" cycleRecordA [] 0).1
      = { count := 2, loopDetected := true, depthLimitReached := false,
          failedIncludes := [], failedRedirects := [] } ∧
    (countDNSLookupsRecursive envChain "c0.x" (chainRecord "c1.x") [] 0).1
      = { count := 11, loopDetected := false, depthLimitReached := true,
          failedIncludes := [], failedRedirects := [] } := by
  refine ⟨?_, by decide, by decide⟩
  intro env domain record visited depth h
  unfold countDNSLookupsRecursive
  have hz : SPF_MAX_RECURSION_DEPTH + 1 - depth = 0 := by
    unfold SPF_MAX_RECURSION_DEPTH at h ⊢; omega
  rw [hz]
  rfl

/-- Witness for `spf_recursion_terminates`: at depth 11 the counter stops at
once, leaving the visited set untouched. -/
theorem spf_recursion_terminates_witness :
    countDNSLookupsRecursive envCycle "a.example" cycleRecordA ["k"] 11
      = (depthLimitResult, ["k"]) :=
  spf_recursion_terminates.1 envCycle "a.example" cycleRecordA ["k"] 11 (by decide)

/-- Claim C10. One visited set is threaded through sibling `include` branches:
reaching an already-visited `(lowercased domain, record)` key anywhere —
at any depth within the limit, from any visited set — contributes zero
additional count and sets `loopDetected`; consequently on the acyclic
diamond (`a.x` includes `b.x` and `c.x`, both of which include `d.x`) the
second arrival at `d.x` counts nothing (total 5, not 6) and
`loopDetected = true` even though no include/redirect cycle exists. -/
theorem spf_visited_shared_across_siblings :
    (∀ (env : DnsEnv) (domain record : String) (visited : List String) (depth : Nat),
        recordKeyOf domain record ∈ visited → depth ≤ SPF_MAX_RECURSION_DEPTH →
        countDNSLookupsRecursive env domain record visited depth
          = (loopDetectedResult, visited)) ∧
    (countDNSLookupsRecursive envDiamond "a.x" diamondRecordA [] 0).1
      = { count := 5, loopDetected := true, depthLimitReached := false,
          failedIncludes := [], failedRedirects := [] } := by
  refine ⟨?_, by decide⟩
  intro env domain record visited depth hmem hdepth
  unfold countDNSLookupsRecursive
  obtain ⟨k, hk⟩ : ∃ k, SPF_MAX_RECURSION_DEPTH + 1 - depth = k + 1 := by
    refine ⟨SPF_MAX_RECURSION_DEPTH - depth, ?_⟩
    unfold SPF_MAX_RECURSION_DEPTH at hdepth ⊢; omega
  rw [hk, countRecAux_succ]
  simp [countRecBody, hmem]

/-- Witness for `spf_visited_shared_across_siblings`: a revisit of the
`d.x` key at depth 2 returns zero count and `loopDetected`. -/
theorem spf_visited_shared_across_siblings_witness :
    countDNSLookupsRecursive envDiamond "d.x" "v=spf1 mx -all"
        [recordKeyOf "d.x" "v=spf1 mx -all"] 2
      = (loopDetectedResult, [recordKeyOf "d.x" "v=spf1 mx -all"]) :=
  spf_visited_shared_across_siblings.1 envDiamond "d.x" "v=spf1 mx -all"
    [recordKeyOf "d.x" "v=spf1 mx -all"] 2 (List.mem_singleton.mpr rfl) (by decide)

theorem extractMechAux_qual : ∀ (cs : List Char) (q : Char),
    extractMechAux cs = some q → isQualChar q = true := by
  intro cs
  induction cs with
  | nil => intro q h; simp [extractMechAux] at h
  | cons c cs ih =>
    intro q h
    simp only [extractMechAux] at h
    split at h
    · next hcond =>
      cases h
      simp only [Bool.and_eq_true] at hcond
      exact hcond.1
    · split at h
      · cases h; rfl
      · exact ih q h


/-- Claim C4.  The scoring penalty is exactly
`min(criticalCount,3)*15 + min(highCount,3)*8 + min(mediumCount,5)*3` over
the issues of all check results, with low/info contributing nothing; in
particular five critical issues yield a penalty of exactly 45, not 75. -/
theorem scoring_penalty_formula :
    (∀ (spf : SPFResult) (dkim : DKIMResult) (dmarc : DMARCResult) (mx : MXResult)
        (bimi : Option BIMIResult) (mtaSts : Option MTASTSResult)
        (tlsRpt : Option TLSRPTResult) (arc : Option ARCReadinessResult)
        (dnssec : Option DNSSECResult),
        calculateIssuePenalty spf dkim dmarc mx bimi mtaSts tlsRpt arc dnssec
          = claimPenalty (allIssues spf dkim dmarc mx bimi mtaSts tlsRpt arc dnssec)) ∧
    calculateIssuePenalty fiveCriticalSpf emptyDkim emptyDmarc emptyMx
        none none none none none = 45 :=
  ⟨fun _ _ _ _ _ _ _ _ _ => rfl, by decide⟩

/-- Witness for `scoring_penalty_formula` at a concrete input. -/
theorem scoring_penalty_formula_witness :
    calculateIssuePenalty fiveCriticalSpf emptyDkim emptyDmarc emptyMx
        none none none none none
      = claimPenalty (allIssues fiveCriticalSpf emptyDkim emptyDmarc emptyMx
          none none none none none) :=
  scoring_penalty_formula.1 fiveCriticalSpf emptyDkim emptyDmarc emptyMx
    none none none none none

/-- Claim C3 (code bug).  The claim — and the source's own documentation
("Bonus points (up to +15...)" in scorer.ts, "max 100 base + 15 bonus" in
constants.ts) — say the bonus pool is capped at +15, but the code caps with
`SCORE_BONUS_MAX = 20`: with every bonus condition met (BIMI+VMC 5,
MTA-STS enforce 4, TLS-RPT 3, ARC 3, DNSSEC 5 = 20) and a DMARC-only base
of 30, the code returns score 50 (grade C); a +15 cap would return 45
(grade D). -/
theorem bonus_cap_is_twenty :
    calculateGrade { found := false, issues := [] } emptyDkim fullBonusDmarc emptyMx
        (some fullBonusBimi) (some fullBonusMtaSts) (some fullBonusTlsRpt)
        (some fullBonusArc) (some fullBonusDnssec)
      = { grade := .C, score := 50 } ∧
    SCORE_BONUS_MAX = 20 :=
  ⟨by decide, rfl⟩

theorem clamp01 (a : Int) : 0 ≤ max 0 (min 100 a) ∧ max 0 (min 100 a) ≤ 100 :=
  ⟨le_max_left 0 _, max_le (by norm_num) (min_le_left _ _)⟩

/-- Claim C5.  For every input the score of `calculateGrade` lies in
`[0, 100]`, and the grade is the value of the threshold chain `gradeOf` on
that score, whose bands `A ≥ 90 > B ≥ 75 > C ≥ 50 > D ≥ 25 > F` are
exhaustive and mutually exclusive. -/
theorem grade_clamped_and_exhaustive :
    (∀ (spf : SPFResult) (dkim : DKIMResult) (dmarc : DMARCResult) (mx : MXResult)
        (bimi : Option BIMIResult) (mtaSts : Option MTASTSResult)
        (tlsRpt : Option TLSRPTResult) (arc : Option ARCReadinessResult)
        (dnssec : Option DNSSECResult),
        0 ≤ (calculateGrade spf dkim dmarc mx bimi mtaSts tlsRpt arc dnssec).score ∧
        (calculateGrade spf dkim dmarc mx bimi mtaSts tlsRpt arc dnssec).score ≤ 100 ∧
        (calculateGrade spf dkim dmarc mx bimi mtaSts tlsRpt arc dnssec).grade
          = gradeOf (calculateGrade spf dkim dmarc mx bimi mtaSts tlsRpt arc dnssec).score) ∧
    (∀ s : Int,
        (gradeOf s = .A ↔ 90 ≤ s) ∧
        (gradeOf s = .B ↔ 75 ≤ s ∧ s < 90) ∧
        (gradeOf s = .C ↔ 50 ≤ s ∧ s < 75) ∧
        (gradeOf s = .D ↔ 25 ≤ s ∧ s < 50) ∧
        (gradeOf s = .F ↔ s < 25)) := by
  constructor
  · intro spf dkim dmarc mx bimi mtaSts tlsRpt arc dnssec
    refine ⟨?_, ?_, rfl⟩
    · simpa only [calculateGrade, finalScore] using
        (clamp01 (max 0 (min 100 (spfScore spf + dkimScore dkim + dmarcScore dmarc
          + min (bimiBonus dmarc bimi + mtaStsBonus mtaSts + tlsRptBonus tlsRpt
            + arcBonus arc + dnssecBonus dnssec) SCORE_BONUS_MAX)
          - (calculateIssuePenalty spf dkim dmarc mx bimi mtaSts tlsRpt arc dnssec : Int)))).1
    · simpa only [calculateGrade, finalScore] using
        (clamp01 (max 0 (min 100 (spfScore spf + dkimScore dkim + dmarcScore dmarc
          + min (bimiBonus dmarc bimi + mtaStsBonus mtaSts + tlsRptBonus tlsRpt
            + arcBonus arc + dnssecBonus dnssec) SCORE_BONUS_MAX)
          - (calculateIssuePenalty spf dkim dmarc mx bimi mtaSts tlsRpt arc dnssec : Int)))).2
  · intro s
    unfold gradeOf GRADE_A_MIN GRADE_B_MIN GRADE_C_MIN GRADE_D_MIN
    split_ifs <;> refine ⟨?_, ?_, ?_, ?_, ?_⟩ <;> constructor <;> intro hh <;>
      first
        | rfl
        | omega
        | (exact absurd hh (by simp))

/-- Witness for `grade_clamped_and_exhaustive` at concrete inputs. -/
theorem grade_clamped_and_exhaustive_witness :
    gradeOf 95 = Grade.A ∧
    0 ≤ (calculateGrade fiveCriticalSpf emptyDkim emptyDmarc emptyMx
        none none none none none).score :=
  ⟨(grade_clamped_and_exhaustive.2 95).1.mpr (by norm_num),
   (grade_clamped_and_exhaustive.1 fiveCriticalSpf emptyDkim emptyDmarc emptyMx
      none none none none none).1⟩

/-- Claim C7.  Whenever the normalized input domain fails `isValidDomain`,
`analyzeDomain` returns the terminal result — independent of every check
outcome, so no check result is consumed — with grade F, score 0 and the
single descriptive error message. -/
theorem invalid_domain_short_circuit (d : String) (hd : isValidDomain d = false) :
    (∀ settled : SettledChecks, analyzeDomain d settled = invalidDomainResult d) ∧
    (invalidDomainResult d).grade = .F ∧
    (invalidDomainResult d).score = 0 ∧
    (invalidDomainResult d).error = some ("Invalid domain format: \"" ++ d ++ "\"") := by
  refine ⟨fun settled => ?_, rfl, rfl, rfl⟩
  simp [analyzeDomain, hd]

/-- Witness for `invalid_domain_short_circuit`: `localhost` (no dot) is
rejected whatever the checks would have produced. -/
theorem invalid_domain_short_circuit_witness :
    analyzeDomain "localhost"
        { spf := .ok { found := true, issues := [] }
          dkim := .error "x", dmarc := .ok { found := false, issues := [] }
          mx := .ok { found := false, records := [], issues := [] }
          bimi := .ok none, mtaSts := .ok none, tlsRpt := .ok none, dnssec := .ok none }
      = invalidDomainResult "localhost" :=
  (invalid_domain_short_circuit "localhost" (by decide)).1 _

/-- Claim C6.  When the DKIM check rejects with any reason while SPF, DMARC
and MX fulfil, `analyzeDomain` synthesizes `dkim` as `found := false` with
the single high-severity "DKIM check failed" issue carrying the reason, uses
the fulfilled `spf`/`dmarc`/`mx` results unchanged, and sets the aggregate
error field to the non-empty string naming DKIM — the failure aborts
nothing. -/
theorem analyzer_isolates_dkim_failure (d : String) (hd : isValidDomain d = true)
    (reason : String) (s : SPFResult) (dm : DMARCResult) (m : MXResult)
    (b : Option BIMIResult) (mt : Option MTASTSResult) (tl : Option TLSRPTResult)
    (dn : Option DNSSECResult) :
    (analyzeDomain d ⟨.ok s, .error reason, .ok dm, .ok m, .ok b, .ok mt, .ok tl, .ok dn⟩).dkim
      = { found := false, selectors := []
          issues := [failedCheckIssue "DKIM" (orUnknown reason)] } ∧
    (analyzeDomain d ⟨.ok s, .error reason, .ok dm, .ok m, .ok b, .ok mt, .ok tl, .ok dn⟩).spf
      = s ∧
    (analyzeDomain d ⟨.ok s, .error reason, .ok dm, .ok m, .ok b, .ok mt, .ok tl, .ok dn⟩).dmarc
      = dm ∧
    (analyzeDomain d ⟨.ok s, .error reason, .ok dm, .ok m, .ok b, .ok mt, .ok tl, .ok dn⟩).mx
      = m ∧
    (analyzeDomain d ⟨.ok s, .error reason, .ok dm, .ok m, .ok b, .ok mt, .ok tl, .ok dn⟩).error
      = some ("DKIM: " ++ reason) := by
  simp [analyzeDomain, hd, extractSpf, extractDkim, extractDmarc, extractMx,
    settledError, joinErrors]

/-- Witness for `analyzer_isolates_dkim_failure` at a concrete rejection. -/
theorem analyzer_isolates_dkim_failure_witness :
    (analyzeDomain "example.com"
        ⟨.ok { found := false, issues := [] }, .error "boom",
         .ok { found := false, issues := [] },
         .ok { found := false, records := [], issues := [] },
         .ok none, .ok none, .ok none, .ok none⟩).error
      = some ("DKIM: " ++ "boom") :=
  (analyzer_isolates_dkim_failure "example.com" (by decide) "boom"
    { found := false, issues := [] } { found := false, issues := [] }
    { found := false, records := [], issues := [] } none none none none).2.2.2.2

theorem tokAt_eq_some {ts cs rest : List Char} (h : tokAt ts cs = some rest) :
    cs = ts ++ rest := by
  induction ts generalizing cs with
  | nil =>
    simp only [tokAt, Option.some.injEq] at h
    simp [h]
  | cons t ts ih =>
    cases cs with
    | nil => simp [tokAt] at h
    | cons c cs2 =>
      simp only [tokAt] at h
      split at h
      · next heq => subst heq; simpa using ih h
      · exact absurd h (by simp)

/-- The amended wildcard relation coincides pointwise with the code's
pattern matcher. -/
theorem amendedPatternMatches_eq : amendedPatternMatches = mtaStsPatternMatches := by
  funext h p
  unfold amendedPatternMatches wildcardSuffix mtaStsPatternMatches
  by_cases hw : (tokAt ['*', '.'] (strToLower p).data).isSome
  · obtain ⟨rest, hrest⟩ := Option.isSome_iff_exists.mp hw
    have hshape := tokAt_eq_some hrest
    simp only [hw, if_true]
    have h1 : (strToLower p).data.drop 1 = '.' :: (strToLower p).data.drop 2 := by
      rw [hshape]; rfl
    simp [h1]
  · simp only [hw, if_false]
    simp [Bool.false_eq_true] at hw
    simp [hw]

theorem filterMap_issue (c : String → Bool) (f : String → Issue) (l : List String) :
    l.filterMap (fun h => if c h then none else some (f h))
      = (l.filter (fun h => !c h)).map f := by
  induction l with
  | nil => rfl
  | cons x xs ih =>
    by_cases hx : c x <;> simp [List.filterMap_cons, List.filter_cons, hx, ih]

/-- Claim C8, amended.  When MTA-STS is found with a non-empty `mx` pattern
list and MX records are found, the issues appended to the MTA-STS result are
exactly one high-severity issue per MX exchange host (lowercased, trailing
dot stripped) matched by no pattern — where a pattern matches by exact
equality, or a `*.suffix` wildcard matches the hosts ending in `.suffix`
and also the bare host equal to `suffix` itself; no issue is appended for a
matched host. -/
theorem mta_sts_mx_coverage (d : String) (settled : SettledChecks)
    (hd : isValidDomain d = true)
    (m : MTASTSResult) (pol : MTASTSPolicy) (patterns : List String) (mx : MXResult)
    (hm : settled.mtaSts = .ok (some m)) (hfound : m.found = true)
    (hpol : m.policy = some pol) (hmx : pol.mx = some patterns)
    (hne : 0 < patterns.length)
    (hmxr : settled.mx = .ok mx) (hmxf : mx.found = true) :
    (analyzeDomain d settled).mtaSts
      = some { m with issues := m.issues
          ++ ((mxHostsOf mx).filter
                (fun h => !(patterns.any (amendedPatternMatches h)))).map uncoveredIssue } := by
  simp only [analyzeDomain, hd, Bool.not_true, Bool.false_eq_true, if_false,
    hm, hmxr, extractMtaSts, extractMx, applyMtaStsMxCheck, hfound, hpol, hmx, if_true,
    hne, hmxf, and_self, ite_true]
  simp only [mtaStsUncoveredIssues, amendedPatternMatches_eq, filterMap_issue]

/-- Witness for `mta_sts_mx_coverage` at the wildcard/bare-apex input. -/
theorem mta_sts_mx_coverage_witness :
    (analyzeDomain "m.example" settledWildcard).mtaSts
      = some { wildcardMtaSts with issues := wildcardMtaSts.issues
          ++ (((mxHostsOf bareMx).filter
                (fun h => !(["*.example.com"].any (amendedPatternMatches h)))).map
              uncoveredIssue) } := by
  rw [mta_sts_mx_coverage "m.example" settledWildcard (by decide) wildcardMtaSts
    { mx := some ["*.example.com"] } ["*.example.com"] bareMx rfl (by decide) rfl rfl
    (by decide) rfl (by decide)]

/-- Counterexample to claim C8 as stated: under the claim's wildcard
relation ("matches exactly the hosts ending in `.suffix`") the bare apex
`example.com` is matched by no pattern of `["*.example.com"]`, so the claim
demands an uncovered-host issue; the code's matcher also accepts the bare
domain (`mxHost === p.slice(2)`), appends nothing, and the MTA-STS result
passes through `analyzeDomain` unchanged. -/
theorem mta_sts_wildcard_counterexample :
    claimPatternMatches "example.com" "*.example.com" = false ∧
    mtaStsUncoveredIssues ["*.example.com"] ["example.com"] = [] ∧
    (analyzeDomain "m.example" settledWildcard).mtaSts = some wildcardMtaSts :=
  ⟨by decide, by decide, by decide⟩

/-- Claim C9.  The mechanism reported by `checkSPF` is the qualifier-prefixed
`all` mechanism: every extracted mechanism is one of `+all`, `-all`, `~all`,
`?all`; a bare `all` defaults to `+all`; a record with no `all` mechanism
yields no mechanism and the high-severity "no all mechanism" issue; and
`v=spf1 +all` yields mechanism `+all` with exactly one critical issue. -/
theorem spf_all_mechanism_extraction :
    (∀ (record m : String), extractMechanism record = some m →
        m = "+all" ∨ m = "-all" ∨ m = "~all" ∨ m = "?all") ∧
    extractMechanism "v=spf1 all" = some "+all" ∧
    (∀ (env : DnsEnv) (domain : String) (chunks : List (List String)) (record : String),
        env domain = .ok chunks →
        (chunks.map joinChunks).filter isSpfRecord = [record] →
        extractMechanism record = none →
        ∃ r, checkSPF env domain = .ok r ∧ r.mechanism = none ∧ noAllIssue ∈ r.issues) ∧
    (checkSPF envPlusAll "x.example"
      = .ok { found := true, record := some "v=spf1 +all", mechanism := some "+all",
              lookupCount := some 0, includes := some [], issues := [plusAllIssue] } ∧
      ([plusAllIssue].filter (fun i => i.severity == Severity.critical)).length = 1) := by
  refine ⟨?_, by decide, ?_, by decide, by decide⟩
  · intro record m h
    simp only [extractMechanism, Option.map_eq_some'] at h
    obtain ⟨q, hq, rfl⟩ := h
    have hqual := extractMechAux_qual record.data q hq
    simp only [isQualChar, Bool.or_eq_true, decide_eq_true_eq] at hqual
    rcases hqual with ((rfl | rfl) | rfl) | rfl <;> decide
  · intro env domain chunks record henv hfilter hm
    simp only [checkSPF, henv, hfilter]
    refine ⟨_, rfl, ?_, ?_⟩
    · exact hm
    · simp [hm, mechanismIssues]

/-- Witness for `spf_all_mechanism_extraction`: a record without any `all`
mechanism yields no mechanism and the no-`all` issue. -/
theorem spf_all_mechanism_extraction_witness :
    ∃ r, checkSPF envNoAll "y.example" = .ok r ∧ r.mechanism = none ∧
      noAllIssue ∈ r.issues :=
  spf_all_mechanism_extraction.2.2.1 envNoAll "y.example" [["v=spf1 ip4:1.2.3.4"]]
    "v=spf1 ip4:1.2.3.4" (by decide) (by decide) (by decide)

end MailVet
